import Mathlib

/-!
Verification of the content-credibility scoring engine of the
Advance-fake-news-detection repository.

The numeric model uses `ℚ` for JavaScript numbers.  All embedded
functions are executable.  JavaScript string operations (`toLowerCase`,
`includes`, `split`, `trim`) are modelled on ASCII text, which covers
every dictionary term and rating string the code manipulates.

Where JavaScript produces `NaN` from `0 / 0` (punctuation ratio of the
empty string) the rational model produces `0`; both values fail the
strict `> 0.1` trigger comparison, so every observable quantity
(booleans, risk score) agrees with the JavaScript semantics.
-/

/-! ### JavaScript string primitives -/

/-- ASCII lowering of one character, the ASCII fragment of
JavaScript `String.prototype.toLowerCase`. -/
def charLowerAscii (c : Char) : Char :=
  if 65 ≤ c.toNat ∧ c.toNat ≤ 90 then Char.ofNat (c.toNat + 32) else c

/-- JavaScript `text.toLowerCase()` on ASCII text. -/
def jsToLower (s : String) : String :=
  String.mk (s.toList.map charLowerAscii)

/-- Does `pat` occur at the head of `s`? -/
def startsWithChars : List Char → List Char → Bool
  | [], _ => true
  | _ :: _, [] => false
  | a :: as, b :: bs => a == b && startsWithChars as bs

/-- Does `pat` occur contiguously anywhere inside `s`? -/
def hasSubChars : List Char → List Char → Bool
  | [], pat => startsWithChars pat []
  | c :: rest, pat => startsWithChars pat (c :: rest) || hasSubChars rest pat

/-- JavaScript `s.includes(pat)`: substring containment. -/
def jsIncludes (s pat : String) : Bool :=
  hasSubChars s.toList pat.toList

/-- Models JavaScript `rating?.includes(pat)`: `undefined` is falsy. -/
def optIncludes (s : Option String) (pat : String) : Bool :=
  match s with
  | none => false
  | some str => jsIncludes str pat

/-- The ASCII characters matched by the JavaScript `\s` class. -/
def isJsWhitespaceChar (c : Char) : Bool :=
  c == ' ' || c == '\t' || c == '\n' || c == '\r' || c.toNat == 11 || c.toNat == 12

/-- JavaScript `s.trim()` for ASCII whitespace. -/
def jsTrim (s : String) : String :=
  String.mk (((s.toList.dropWhile (isJsWhitespaceChar ·)).reverse.dropWhile
      (isJsWhitespaceChar ·)).reverse)

/-- State machine for JavaScript `s.split(/X+/)`: `acc` is the current
fragment (reversed), `inRun` records whether the previous character was a
separator, so a maximal run of separators produces a single split. -/
def splitRunsGo (p : Char → Bool) : List Char → List Char → Bool → List String
  | [], acc, _ => [String.mk acc.reverse]
  | c :: rest, acc, inRun =>
    if p c then
      if inRun then splitRunsGo p rest acc true
      else String.mk acc.reverse :: splitRunsGo p rest [] true
    else splitRunsGo p rest (c :: acc) false

/-- JavaScript `s.split(/X+/)` where `p` recognises the character class
`X`: splits on maximal runs of separators; leading and trailing runs
yield empty fragments, and `"".split` yields `[""]`. -/
def splitRuns (p : Char → Bool) (s : String) : List String :=
  splitRunsGo p s.toList [] false

/-- Number of characters of `s` satisfying `p`. -/
def countChars (p : Char → Bool) (s : String) : ℕ :=
  (s.toList.filter p).length

/-- The character class `[!?.,;:]`. -/
def isPunctuationChar (c : Char) : Bool :=
  c == '!' || c == '?' || c == '.' || c == ',' || c == ';' || c == ':'

/-- The character class `[A-Z]`. -/
def isUpperChar (c : Char) : Bool :=
  65 ≤ c.toNat && c.toNat ≤ 90

/-- The character class `[a-zA-Z]`. -/
def isLetterAsciiChar (c : Char) : Bool :=
  (65 ≤ c.toNat && c.toNat ≤ 90) || (97 ≤ c.toNat && c.toNat ≤ 122)

/-! ### Risk Pattern Detector
(src/backend/src/models/riskPatternDetector.ts) -/

/-- The conspiracy-term dictionary, in insertion order. -/
def conspiracyTerms : List String :=
  ["deep state", "illuminati", "new world order", "chemtrails",
   "microchip", "mind control", "cover up", "shadow government",
   "conspiracy", "controlled opposition", "false flag"]

/-- The emotive-word dictionary. -/
def emotiveWords : List String :=
  ["shocking", "bombshell", "explosive", "terrifying",
   "outrageous", "devastating", "catastrophic", "horrifying"]

/-- The urgency-phrase dictionary. -/
def urgencyPhrases : List String :=
  ["must see", "share before deleted", "urgent", "breaking",
   "they don\x27t want you to know", "wake up", "time is running out"]

/-- `detectTerms`: the dictionary terms occurring as substrings of the
(already lowercased) text, in dictionary order. -/
def detectTerms (text : String) (termSet : List String) : List String :=
  termSet.filter (fun term => jsIncludes text term)

/-- `calculatePunctuationRatio`: `[!?.,;:]`-count over total length.
JavaScript yields `NaN` for the empty string; the rational model yields
`0`, and both fail every strict comparison the detector performs. -/
def calculatePunctuationRatio (text : String) : ℚ :=
  (countChars isPunctuationChar text : ℚ) / (text.toList.length : ℚ)

/-- `calculateCapsRatio`: `[A-Z]`-count over `[a-zA-Z]`-count, `0` when
there are no letters. -/
def calculateCapsRatio (text : String) : ℚ :=
  if 0 < countChars isLetterAsciiChar text then
    (countChars isUpperChar text : ℚ) / (countChars isLetterAsciiChar text : ℚ)
  else 0

/-- The metrics record passed to `calculateRiskScore`. -/
structure RiskMetrics where
  punctuationRat : ℚ
  capsRat : ℚ
  conspiracyTermCount : ℕ
  hasEmotiveLanguage : Bool
  hasUrgencyIndicators : Bool
deriving DecidableEq

/-- `calculateRiskScore`: weighted sum of the five risk signals with the
final `Math.min(1, score)` cap.  The conspiracy summand is
`(count * 0.2) * 0.3` with no intermediate cap. -/
def calculateRiskScore (m : RiskMetrics) : ℚ :=
  let score : ℚ :=
    (if m.punctuationRat > 0.1 then m.punctuationRat else 0) * 0.15
    + (if m.capsRat > 0.3 then m.capsRat else 0) * 0.15
    + ((m.conspiracyTermCount : ℚ) * 0.2) * 0.3
    + (if m.hasEmotiveLanguage then (1 : ℚ) else 0) * 0.2
    + (if m.hasUrgencyIndicators then (1 : ℚ) else 0) * 0.2
  min 1 score

/-- The `patterns` record of a risk analysis. -/
structure RiskPatterns where
  excessivePunctuation : Bool
  allCaps : Bool
  conspiracyTermsFound : List String
  emotiveLanguage : Bool
  urgencyIndicators : Bool
deriving DecidableEq

/-- `RiskPatternResult` (the human-readable `analysis` strings are
presentation-only and not modelled). -/
structure RiskPatternResult where
  patterns : RiskPatterns
  riskScore : ℚ
  flaggedTerms : List String
deriving DecidableEq

/-- `RiskPatternDetector.analyze`. -/
def RiskPatternDetector.analyze (text : String) : RiskPatternResult :=
  let normalizedText := jsToLower text
  let punctuationRat := calculatePunctuationRatio text
  let hasExcessivePunctuation := decide (punctuationRat > 0.1)
  let capsRat := calculateCapsRatio text
  let hasAllCaps := decide (capsRat > 0.3)
  let detectedConspiracyTerms := detectTerms normalizedText conspiracyTerms
  let flaggedTerms :=
    if 0 < detectedConspiracyTerms.length then detectedConspiracyTerms else []
  let hasEmotiveLanguage := decide (0 < (detectTerms normalizedText emotiveWords).length)
  let hasUrgencyIndicators := decide (0 < (detectTerms normalizedText urgencyPhrases).length)
  let riskScore := calculateRiskScore
    { punctuationRat := punctuationRat
      capsRat := capsRat
      conspiracyTermCount := detectedConspiracyTerms.length
      hasEmotiveLanguage := hasEmotiveLanguage
      hasUrgencyIndicators := hasUrgencyIndicators }
  { patterns :=
      { excessivePunctuation := hasExcessivePunctuation
        allCaps := hasAllCaps
        conspiracyTermsFound := detectedConspiracyTerms
        emotiveLanguage := hasEmotiveLanguage
        urgencyIndicators := hasUrgencyIndicators }
    riskScore := riskScore
    flaggedTerms := flaggedTerms }

/-! ### External fact-check client (src/unnamed/part_002,
`FactCheckService.verifyClaim`) -/

/-- One `claimReview` entry.  Fields the modelled computations never
read (`url`, `title`, `reviewDate`, `languageCode`, publisher `site`)
are omitted. -/
structure ClaimReview where
  publisherName : String
  textualRating : String
deriving DecidableEq

/-- One claim returned by the external claim-search capability.  The
`text`, `claimant` and `claimDate` fields are never read by the
modelled computations and are omitted. -/
structure FactCheckClaim where
  claimReview : List ClaimReview
deriving DecidableEq

/-- `FactCheckResult` as returned by `verifyClaim`. -/
structure FactCheckResult where
  isVerifiable : Bool
  rating : Option String
  claims : List FactCheckClaim
  error : Option String
deriving DecidableEq

/-- The outcome of the one external HTTP call `verifyClaim` performs:
either a response body (whose `claims` field may be absent), or a thrown
error (network failure or malformed data). -/
inductive ApiOutcome where
  | success (claims : Option (List FactCheckClaim))
  | failure (message : String)
deriving DecidableEq

/-- `claims[0].claimReview[0]?.textualRating || 'Unrated'`: the rating
of the first review of the first claim; the JavaScript `||` treats an
empty rating string as falsy. -/
def topRatingOf (c : FactCheckClaim) : String :=
  match c.claimReview.head? with
  | none => "Unrated"
  | some review => if review.textualRating = "" then "Unrated" else review.textualRating

/-- `FactCheckService.verifyClaim`, with the configured credential and
the external call outcome passed explicitly.  `!API_KEY` is true for a
missing or empty environment variable.  The function is total: every
branch, including a thrown error, yields a `FactCheckResult`. -/
def FactCheckService.verifyClaim (apiKey : Option String) (outcome : ApiOutcome) :
    FactCheckResult :=
  match apiKey with
  | none =>
    { isVerifiable := false, rating := some "Not Available", claims := [],
      error := some "API key not configured" }
  | some key =>
    if key = "" then
      { isVerifiable := false, rating := some "Not Available", claims := [],
        error := some "API key not configured" }
    else
      match outcome with
      | .failure _ =>
        { isVerifiable := false, rating := some "Error", claims := [],
          error := some "Failed to communicate with Fact Check API" }
      | .success claimsOpt =>
        match claimsOpt with
        | none =>
          { isVerifiable := false, rating := some "No results", claims := [], error := none }
        | some [] =>
          { isVerifiable := false, rating := some "No results", claims := [], error := none }
        | some (c :: rest) =>
          { isVerifiable := true, rating := some (topRatingOf c), claims := c :: rest,
            error := none }

/-! ### Text analyzer (src/unnamed/part_004, `TextAnalyzer`) -/

/-- `Math.max(0, Math.min(1, x))`. -/
def clamp01 (x : ℚ) : ℚ := max 0 (min 1 x)

/-- `TextAnalyzer.calculateBlendedScore`. -/
def calculateBlendedScore (mlConfidence : ℚ) (factCheckResult : Option FactCheckResult) :
    ℚ :=
  match factCheckResult with
  | none => mlConfidence
  | some fc =>
    if !fc.isVerifiable || fc.rating == some "No results" || fc.rating == some "Unrated" then
      mlConfidence
    else
      let rating := fc.rating.map jsToLower
      let factCheckModifier : ℚ :=
        if optIncludes rating "false" || optIncludes rating "untrue" then -0.4
        else if optIncludes rating "misleading" || optIncludes rating "mixture" then -0.2
        else if optIncludes rating "true" || optIncludes rating "accurate" then 0.2
        else 0
      max 0 (min 1 (mlConfidence + factCheckModifier))

/-- The sensationalist-word set of `TextAnalyzer`. -/
def sensationalistWords : List String :=
  ["shocking", "bombshell", "you won\x27t believe",
   "mind-blowing", "unbelievable", "breaking news",
   "explosive", "secret", "conspiracy"]

/-- The rule-based fallback: `penalty += 0.1` per sensationalist word
found in the lowercased text. -/
def sensationalistPenalty (text : String) : ℚ :=
  0.1 * ((sensationalistWords.filter (fun w => jsIncludes (jsToLower text) w)).length : ℚ)

/-- How the internal classifier call resolved: a predicted value, the
model-unavailable rule-based fallback path, or a thrown error. -/
inductive MlOutcome where
  | predicted (value : ℚ)
  | modelUnavailable
  | threw
deriving DecidableEq

/-- The `mlConfidence` value after the first try/catch of
`analyzeText`: prediction value, rule-based fallback
`Math.max(0, 1 - penalty)`, or `0` on a thrown error. -/
def mlConfidenceOf (text : String) (mlo : MlOutcome) : ℚ :=
  match mlo with
  | .predicted v => v
  | .modelUnavailable => max 0 (1 - sensationalistPenalty text)
  | .threw => 0

/-- How the external fact-check call resolved inside the second
try/catch of `analyzeText`: a returned result, or a thrown error (in
which case `factCheckResult` stays `null`). -/
inductive FcOutcome where
  | returned (r : FactCheckResult)
  | threw
deriving DecidableEq

/-- The `factCheckResult` variable after the second try/catch. -/
def factCheckOf (fco : FcOutcome) : Option FactCheckResult :=
  match fco with
  | .returned r => some r
  | .threw => none

/-- The binary prediction. -/
inductive Prediction where
  | REAL
  | FAKE
deriving DecidableEq

/-- `TextAnalysisResult` restricted to the fields the claims are about
(the `metrics` and the reasoning strings are presentation data derived
from these). -/
structure TextAnalysisResult where
  prediction : Prediction
  confidence : ℚ
  factCheck : Option FactCheckResult
deriving DecidableEq

/-- `TextAnalyzer.analyzeText` with its two I/O resolutions passed
explicitly.  Note the source function receives only `text`: no source
string, domain or trust tier enters the computation. -/
def TextAnalyzer.analyzeText (text : String) (mlo : MlOutcome) (fco : FcOutcome) :
    TextAnalysisResult :=
  let mlConfidence := mlConfidenceOf text mlo
  let factCheckResult := factCheckOf fco
  let finalConfidence := calculateBlendedScore mlConfidence factCheckResult
  { prediction := if finalConfidence > 0.5 then .FAKE else .REAL
    confidence := finalConfidence
    factCheck := factCheckResult }

/-! ### Lexical signal extraction (src/unnamed/part_007,
`performLinguisticAnalysis`): the sentence/word splitting feeding the
readability computation. -/

/-- The character class `[.!?]`. -/
def isSentenceDelimChar (c : Char) : Bool :=
  c == '.' || c == '!' || c == '?'

/-- `text.split(/[.!?]+/).filter(s => s.trim().length > 0)`. -/
def sentencesOf (text : String) : List String :=
  (splitRuns isSentenceDelimChar text).filter (fun s => 0 < (jsTrim s).toList.length)

/-- `text.toLowerCase().split(/\s+/)`. -/
def wordsOf (text : String) : List String :=
  splitRuns isJsWhitespaceChar (jsToLower text)

/-- `avgWordsPerSentence = words.length / sentences.length`, with no
guard on the divisor.  JavaScript yields `Infinity` when
`sentences.length` is `0`; the rational model yields `0` there, so the
zero-divisor situation itself is what the theorems exhibit. -/
def avgWordsPerSentence (text : String) : ℚ :=
  ((wordsOf text).length : ℚ) / ((sentencesOf text).length : ℚ)

/-! ### Definitions following the specification words, for comparison
with the code (refinement claims only). -/

/-- Claim C1/C10 wording: the additive modifier for a verified rating,
by case-insensitive substring match, first matching class wins. -/
def ratingModifier_claim (rating : String) : ℚ :=
  if jsIncludes (jsToLower rating) "false" || jsIncludes (jsToLower rating) "untrue" then -0.4
  else if jsIncludes (jsToLower rating) "misleading" || jsIncludes (jsToLower rating) "mixture" then -0.2
  else if jsIncludes (jsToLower rating) "true" || jsIncludes (jsToLower rating) "accurate" then 0.2
  else 0

/-- Claim C1 wording: the verdict is inconclusive when there is no
result, the result is not verifiable (unavailable / error / no
results), or the rating is the `Unrated` sentinel. -/
def verdictInconclusive (fc : Option FactCheckResult) : Bool :=
  match fc with
  | none => true
  | some r => !r.isVerifiable || r.rating == some "No results" || r.rating == some "Unrated"

/-- Claim C1 wording: the modifier attached to a fact-check verdict
(`0` for every inconclusive verdict and for a missing rating). -/
def verdictModifier_claim (fc : Option FactCheckResult) : ℚ :=
  if verdictInconclusive fc then 0
  else
    match fc with
    | none => 0
    | some r =>
      match r.rating with
      | none => 0
      | some s => ratingModifier_claim s

/-- Claim C4 wording: `0.30 * min(1, conspiracyCount * 0.2)` — the
sub-score capped at `1` before the `0.30` weight. -/
def conspiracySubScore_spec (count : ℕ) : ℚ :=
  0.3 * min 1 ((count : ℚ) * 0.2)

/-- The coarse source trust tier of the specification. -/
inductive TrustTier where
  | Trusted
  | Suspicious
  | Unknown
deriving DecidableEq

/-- Modelled from the spec: the "minor directional nudge (±0.05)
toward/away from FAKE for Suspicious/Trusted tiers" of §4.6.  No such
mechanism exists anywhere in the source; the definition follows the
specification words so the claimed behaviour can be compared with the
code. -/
def trustTierNudge_spec : TrustTier → ℚ
  | .Suspicious => 0.05
  | .Trusted => -0.05
  | .Unknown => 0

/-- Modelled from the spec: the final confidence after folding the
trust tier into the blend, per §4.6. -/
def blendWithTrust_spec (blended : ℚ) (tier : TrustTier) : ℚ :=
  clamp01 (blended + trustTierNudge_spec tier)

/-! ### Helper lemmas -/

/-- `clamp01` is the identity on `[0,1]`. -/
theorem clamp01_eq_self (c : ℚ) (h0 : 0 ≤ c) (h1 : c ≤ 1) : clamp01 c = c := by
  unfold clamp01
  rw [min_eq_right h1, max_eq_right h0]

/-- `calculateRiskScore` always lands in `[0,1]`, whatever the metrics. -/
theorem calculateRiskScore_mem (m : RiskMetrics) :
    0 ≤ calculateRiskScore m ∧ calculateRiskScore m ≤ 1 := by
  simp only [calculateRiskScore]
  have h1 : (0:ℚ) ≤ (if m.punctuationRat > 0.1 then m.punctuationRat else 0) := by
    by_cases h : m.punctuationRat > 0.1
    · rw [if_pos h]; linarith
    · rw [if_neg h]
  have h2 : (0:ℚ) ≤ (if m.capsRat > 0.3 then m.capsRat else 0) := by
    by_cases h : m.capsRat > 0.3
    · rw [if_pos h]; linarith
    · rw [if_neg h]
  have h3 : (0:ℚ) ≤ ((m.conspiracyTermCount : ℚ) * 0.2) * 0.3 := by positivity
  have h4 : (0:ℚ) ≤ (if m.hasEmotiveLanguage then (1:ℚ) else 0) := by
    by_cases h : m.hasEmotiveLanguage <;> simp [h]
  have h5 : (0:ℚ) ≤ (if m.hasUrgencyIndicators then (1:ℚ) else 0) := by
    by_cases h : m.hasUrgencyIndicators <;> simp [h]
  constructor
  · apply le_min (by norm_num)
    have := mul_nonneg h1 (by norm_num : (0:ℚ) ≤ 0.15)
    have := mul_nonneg h2 (by norm_num : (0:ℚ) ≤ 0.15)
    have := mul_nonneg h4 (by norm_num : (0:ℚ) ≤ 0.2)
    have := mul_nonneg h5 (by norm_num : (0:ℚ) ≤ 0.2)
    linarith
  · exact min_le_left _ _

/-- The risk score of an analysis, written out on the raw signals. -/
theorem analyze_riskScore_eq (text : String) :
    (RiskPatternDetector.analyze text).riskScore = calculateRiskScore
      { punctuationRat := calculatePunctuationRatio text
        capsRat := calculateCapsRatio text
        conspiracyTermCount := (detectTerms (jsToLower text) conspiracyTerms).length
        hasEmotiveLanguage := decide (0 < (detectTerms (jsToLower text) emotiveWords).length)
        hasUrgencyIndicators := decide (0 < (detectTerms (jsToLower text) urgencyPhrases).length) } :=
  rfl

/-- Punctuation ratio of `"AAA"`. -/
theorem punctuationRatio_AAA : calculatePunctuationRatio "AAA" = 0 := by
  unfold calculatePunctuationRatio
  rw [show countChars isPunctuationChar "AAA" = 0 from by decide,
    show ("AAA" : String).toList.length = 3 from by decide]
  norm_num

/-- Caps ratio of `"AAA"`. -/
theorem capsRatio_AAA : calculateCapsRatio "AAA" = 1 := by
  unfold calculateCapsRatio
  rw [show countChars isLetterAsciiChar "AAA" = 3 from by decide,
    show countChars isUpperChar "AAA" = 3 from by decide]
  norm_num

/-- Punctuation ratio of `"AAA conspiracy"`. -/
theorem punctuationRatio_AAAc : calculatePunctuationRatio "AAA conspiracy" = 0 := by
  unfold calculatePunctuationRatio
  rw [show countChars isPunctuationChar "AAA conspiracy" = 0 from by decide,
    show ("AAA conspiracy" : String).toList.length = 14 from by decide]
  norm_num

/-- Caps ratio of `"AAA conspiracy"`. -/
theorem capsRatio_AAAc : calculateCapsRatio "AAA conspiracy" = 3 / 13 := by
  unfold calculateCapsRatio
  rw [show countChars isLetterAsciiChar "AAA conspiracy" = 13 from by decide,
    show countChars isUpperChar "AAA conspiracy" = 3 from by decide]
  norm_num

/-- Risk score of `"AAA"`: only the caps signal fires. -/
theorem riskScore_AAA : (RiskPatternDetector.analyze "AAA").riskScore = 3 / 20 := by
  rw [analyze_riskScore_eq, punctuationRatio_AAA, capsRatio_AAA,
    show detectTerms (jsToLower "AAA") conspiracyTerms = [] from by decide,
    show detectTerms (jsToLower "AAA") emotiveWords = [] from by decide,
    show detectTerms (jsToLower "AAA") urgencyPhrases = [] from by decide]
  norm_num [calculateRiskScore]

/-- Risk score of `"AAA conspiracy"`: the caps signal no longer fires
(3/13 ≤ 0.3) and one conspiracy term contributes `0.2 * 0.3`. -/
theorem riskScore_AAAc :
    (RiskPatternDetector.analyze "AAA conspiracy").riskScore = 3 / 50 := by
  rw [analyze_riskScore_eq, punctuationRatio_AAAc, capsRatio_AAAc,
    show detectTerms (jsToLower "AAA conspiracy") conspiracyTerms = ["conspiracy"] from by decide,
    show detectTerms (jsToLower "AAA conspiracy") emotiveWords = [] from by decide,
    show detectTerms (jsToLower "AAA conspiracy") urgencyPhrases = [] from by decide]
  norm_num [calculateRiskScore]

/-! ### Claim C2 -/

/-- Claim C2 counterexample: `"AAA conspiracy"` extends `"AAA"` by one
more occurrence of the dictionary term `"conspiracy"`, yet its risk
score is strictly smaller (3/50 < 3/20): the appended lowercase letters
push the caps ratio below its 0.3 trigger. -/
theorem riskScore_monotonicity_counterexample :
    ("AAA" ++ " conspiracy" : String) = "AAA conspiracy" ∧
    jsIncludes (jsToLower " conspiracy") "conspiracy" = true ∧
    (RiskPatternDetector.analyze "AAA conspiracy").riskScore <
      (RiskPatternDetector.analyze "AAA").riskScore := by
  refine ⟨by decide, by decide, ?_⟩
  rw [riskScore_AAA, riskScore_AAAc]
  norm_num

/-- Claim C2 (amended): with the punctuation ratio, caps ratio and the
emotive/urgency flags held fixed, `calculateRiskScore` is monotone
nondecreasing in the conspiracy term count. -/
theorem riskScore_monotone_in_conspiracyCount (p c : ℚ) (e u : Bool) (n₁ n₂ : ℕ)
    (h : n₁ ≤ n₂) :
    calculateRiskScore ⟨p, c, n₁, e, u⟩ ≤ calculateRiskScore ⟨p, c, n₂, e, u⟩ := by
  have hc : (n₁ : ℚ) ≤ (n₂ : ℚ) := by exact_mod_cast h
  simp only [calculateRiskScore]
  refine min_le_min le_rfl ?_
  have h23 : ((n₁ : ℚ) * 0.2) * 0.3 ≤ ((n₂ : ℚ) * 0.2) * 0.3 := by nlinarith
  linarith

/-- Witness for the amended C2 theorem at concrete counts 1 ≤ 2. -/
theorem riskScore_monotone_in_conspiracyCount_witness :
    calculateRiskScore ⟨0, 0, 1, false, false⟩ ≤ calculateRiskScore ⟨0, 0, 2, false, false⟩ :=
  riskScore_monotone_in_conspiracyCount 0 0 false false 1 2 (by norm_num)

/-! ### Claim C9 -/

/-- Claim C9: the flagged terms of a risk analysis are exactly the
detected conspiracy terms; emotive and urgency matches only set their
boolean flags. -/
theorem flaggedTerms_eq_conspiracy_patterns (text : String) :
    (RiskPatternDetector.analyze text).flaggedTerms =
      (RiskPatternDetector.analyze text).patterns.conspiracyTermsFound := by
  show (if 0 < (detectTerms (jsToLower text) conspiracyTerms).length
      then detectTerms (jsToLower text) conspiracyTerms else []) =
    detectTerms (jsToLower text) conspiracyTerms
  by_cases h : 0 < (detectTerms (jsToLower text) conspiracyTerms).length
  · rw [if_pos h]
  · rw [if_neg h]
    exact (List.eq_nil_of_length_eq_zero (Nat.eq_zero_of_not_pos h)).symm

/-! ### Claim C4 -/

/-- A text containing six distinct conspiracy-dictionary terms and no
other risk signal. -/
def sixTermText : String :=
  "deep state illuminati chemtrails microchip conspiracy cover up"

/-- Punctuation ratio of `sixTermText`. -/
theorem punctuationRatio_sixTermText : calculatePunctuationRatio sixTermText = 0 := by
  unfold calculatePunctuationRatio sixTermText
  rw [show countChars isPunctuationChar
      "deep state illuminati chemtrails microchip conspiracy cover up" = 0 from by decide,
    show ("deep state illuminati chemtrails microchip conspiracy cover up" : String).toList.length
      = 62 from by decide]
  norm_num

/-- Caps ratio of `sixTermText`. -/
theorem capsRatio_sixTermText : calculateCapsRatio sixTermText = 0 := by
  unfold calculateCapsRatio sixTermText
  rw [show countChars isLetterAsciiChar
      "deep state illuminati chemtrails microchip conspiracy cover up" = 55 from by decide,
    show countChars isUpperChar
      "deep state illuminati chemtrails microchip conspiracy cover up" = 0 from by decide]
  norm_num

/-- Claim C4 counterexample: on a text matching six conspiracy terms
and nothing else, the code produces riskScore `min(1, 6*0.2*0.3) = 0.36`,
not the claimed `0.30 * min(1, 6*0.2) = 0.30`: the sub-score is not
capped before the weight. -/
theorem conspiracy_subscore_cap_counterexample :
    (RiskPatternDetector.analyze sixTermText).patterns.conspiracyTermsFound.length = 6 ∧
    (RiskPatternDetector.analyze sixTermText).riskScore = 9 / 25 ∧
    conspiracySubScore_spec 6 = 3 / 10 ∧
    (RiskPatternDetector.analyze sixTermText).riskScore ≠ conspiracySubScore_spec 6 := by
  have hlen : (RiskPatternDetector.analyze sixTermText).patterns.conspiracyTermsFound.length = 6 := by
    decide
  have hscore : (RiskPatternDetector.analyze sixTermText).riskScore = 9 / 25 := by
    rw [analyze_riskScore_eq, punctuationRatio_sixTermText, capsRatio_sixTermText,
      show detectTerms (jsToLower sixTermText) conspiracyTerms =
        ["deep state", "illuminati", "chemtrails", "microchip", "cover up", "conspiracy"]
        from by decide,
      show detectTerms (jsToLower sixTermText) emotiveWords = [] from by decide,
      show detectTerms (jsToLower sixTermText) urgencyPhrases = [] from by decide]
    norm_num [calculateRiskScore]
  have hspec : conspiracySubScore_spec 6 = 3 / 10 := by
    norm_num [conspiracySubScore_spec]
  refine ⟨hlen, hscore, hspec, ?_⟩
  rw [hscore, hspec]
  norm_num

/-- Claim C4 (amended): the conspiracy contribution to the pre-cap score
is the uncapped `(count * 0.2) * 0.3`; saturation happens only through
the final `min(1, ·)` over the whole weighted sum. -/
theorem conspiracy_contribution_uncapped (text : String) :
    (RiskPatternDetector.analyze text).riskScore =
      min 1 ((if calculatePunctuationRatio text > 0.1 then calculatePunctuationRatio text else 0) * 0.15
        + (if calculateCapsRatio text > 0.3 then calculateCapsRatio text else 0) * 0.15
        + ((detectTerms (jsToLower text) conspiracyTerms).length : ℚ) * 0.2 * 0.3
        + (if 0 < (detectTerms (jsToLower text) emotiveWords).length then (1 : ℚ) else 0) * 0.2
        + (if 0 < (detectTerms (jsToLower text) urgencyPhrases).length then (1 : ℚ) else 0) * 0.2) := by
  rw [analyze_riskScore_eq]
  by_cases he : 0 < (detectTerms (jsToLower text) emotiveWords).length <;>
    by_cases hu : 0 < (detectTerms (jsToLower text) urgencyPhrases).length <;>
      simp [calculateRiskScore, he, hu]

/-! ### Claim C3 -/

/-- Claim C3: for a classifier confidence in `[0,1]` the blended final
confidence stays in `[0,1]` for every fact-check result, and the risk
score of every text lies in `[0,1]`. -/
theorem confidence_and_riskScore_bounded :
    (∀ (c : ℚ) (fc : Option FactCheckResult), 0 ≤ c → c ≤ 1 →
      0 ≤ calculateBlendedScore c fc ∧ calculateBlendedScore c fc ≤ 1) ∧
    (∀ text : String,
      0 ≤ (RiskPatternDetector.analyze text).riskScore ∧
      (RiskPatternDetector.analyze text).riskScore ≤ 1) := by
  constructor
  · intro c fc h0 h1
    match fc with
    | none => exact ⟨h0, h1⟩
    | some r =>
      simp only [calculateBlendedScore]
      by_cases hb : (!r.isVerifiable || r.rating == some "No results" ||
          r.rating == some "Unrated") = true
      · rw [if_pos hb]
        exact ⟨h0, h1⟩
      · rw [if_neg hb]
        constructor
        · exact le_max_left 0 _
        · exact max_le (by norm_num) (min_le_left _ _)
  · intro text
    rw [analyze_riskScore_eq]
    exact calculateRiskScore_mem _

/-- Witness for C3 at concrete inputs. -/
theorem confidence_and_riskScore_bounded_witness :
    (0 ≤ calculateBlendedScore (1/2) none ∧ calculateBlendedScore (1/2) none ≤ 1) ∧
    (0 ≤ (RiskPatternDetector.analyze "abc").riskScore ∧
      (RiskPatternDetector.analyze "abc").riskScore ≤ 1) :=
  ⟨confidence_and_riskScore_bounded.1 (1/2) none (by norm_num) (by norm_num),
   confidence_and_riskScore_bounded.2 "abc"⟩

/-! ### Claim C1 -/

/-- Claim C1: for a classifier confidence `c ∈ [0,1]` the blended score
is `clamp01 (c + modifier)` with the modifier determined by
case-insensitive substring match on the verified rating, and equals `c`
whenever the verdict is inconclusive (no result, unavailable, error, no
results found, or the `Unrated` sentinel). -/
theorem blendedScore_matches_claimed_modifier (c : ℚ) (fc : Option FactCheckResult)
    (h0 : 0 ≤ c) (h1 : c ≤ 1) :
    calculateBlendedScore c fc = clamp01 (c + verdictModifier_claim fc) ∧
    (verdictInconclusive fc = true → calculateBlendedScore c fc = c) := by
  have hid : clamp01 c = c := clamp01_eq_self c h0 h1
  constructor
  · match fc with
    | none =>
      show c = clamp01 (c + verdictModifier_claim none)
      rw [show verdictModifier_claim none = 0 from rfl, add_zero, hid]
    | some r =>
      simp only [calculateBlendedScore, verdictModifier_claim, verdictInconclusive]
      by_cases hb : (!r.isVerifiable || r.rating == some "No results" ||
          r.rating == some "Unrated") = true
      · rw [if_pos hb, if_pos hb, add_zero, hid]
      · rw [if_neg hb, if_neg hb]
        match hr : r.rating with
        | none => simp [optIncludes, clamp01]
        | some s =>
          simp only [ratingModifier_claim, clamp01]
          rfl
  · intro hinc
    match fc with
    | none => rfl
    | some r =>
      simp only [verdictInconclusive] at hinc
      simp only [calculateBlendedScore]
      rw [if_pos hinc]

/-- Witness for C1 on a verified "False" rating at confidence 1/2. -/
theorem blendedScore_matches_claimed_modifier_witness :
    calculateBlendedScore (1/2)
        (some ⟨true, some "False", [], none⟩) =
      clamp01 (1/2 + verdictModifier_claim (some ⟨true, some "False", [], none⟩)) :=
  (blendedScore_matches_claimed_modifier (1/2) _ (by norm_num) (by norm_num)).1

/-! ### Claim C5 -/

/-- Claim C5: the prediction is FAKE exactly when the blended final
confidence is strictly greater than 0.5, and REAL otherwise. -/
theorem prediction_iff_confidence_gt_half (text : String) (mlo : MlOutcome)
    (fco : FcOutcome) :
    ((TextAnalyzer.analyzeText text mlo fco).prediction = Prediction.FAKE ↔
      (TextAnalyzer.analyzeText text mlo fco).confidence > 1/2) ∧
    ((TextAnalyzer.analyzeText text mlo fco).prediction = Prediction.REAL ↔
      ¬ (TextAnalyzer.analyzeText text mlo fco).confidence > 1/2) := by
  have h05 : (0.5 : ℚ) = 1/2 := by norm_num
  show ((if calculateBlendedScore (mlConfidenceOf text mlo) (factCheckOf fco) > 0.5
      then Prediction.FAKE else Prediction.REAL) = Prediction.FAKE ↔ _) ∧
    ((if calculateBlendedScore (mlConfidenceOf text mlo) (factCheckOf fco) > 0.5
      then Prediction.FAKE else Prediction.REAL) = Prediction.REAL ↔ _)
  rw [h05]
  by_cases h : calculateBlendedScore (mlConfidenceOf text mlo) (factCheckOf fco) > 1/2
  · rw [if_pos h]
    refine ⟨⟨fun _ => h, fun _ => rfl⟩, ⟨fun hc => ?_, fun hn => absurd h hn⟩⟩
    exact Prediction.noConfusion hc
  · rw [if_neg h]
    refine ⟨⟨fun hc => ?_, fun hc => absurd hc h⟩, ⟨fun _ => h, fun _ => rfl⟩⟩
    exact Prediction.noConfusion hc

/-! ### Claim C6 -/

/-- Claim C6: `verifyClaim` is total (every resolution of the external
call is mapped to a result, never rethrown) and returns the
"not configured" unavailable result when no credential is set, the
error result when the call fails, the no-results result for an absent
or empty claims list, and otherwise a verifiable verdict whose rating
comes only from the first claim's first review. -/
theorem verifyClaim_total_case_analysis :
    (∀ outcome, FactCheckService.verifyClaim none outcome =
      ⟨false, some "Not Available", [], some "API key not configured"⟩) ∧
    (∀ outcome, FactCheckService.verifyClaim (some "") outcome =
      ⟨false, some "Not Available", [], some "API key not configured"⟩) ∧
    (∀ (k msg : String), k ≠ "" → FactCheckService.verifyClaim (some k) (.failure msg) =
      ⟨false, some "Error", [], some "Failed to communicate with Fact Check API"⟩) ∧
    (∀ k : String, k ≠ "" →
      FactCheckService.verifyClaim (some k) (.success none) =
        ⟨false, some "No results", [], none⟩ ∧
      FactCheckService.verifyClaim (some k) (.success (some [])) =
        ⟨false, some "No results", [], none⟩) ∧
    (∀ (k : String) (c : FactCheckClaim) (rest : List FactCheckClaim), k ≠ "" →
      FactCheckService.verifyClaim (some k) (.success (some (c :: rest))) =
        ⟨true, some (topRatingOf c), c :: rest, none⟩) := by
  refine ⟨fun _ => rfl, fun _ => rfl, ?_, ?_, ?_⟩
  · intro k msg hk
    simp [FactCheckService.verifyClaim, hk]
  · intro k hk
    constructor <;> simp [FactCheckService.verifyClaim, hk]
  · intro k c rest hk
    simp [FactCheckService.verifyClaim, hk]

/-- Witness for C6 at concrete inputs. -/
theorem verifyClaim_total_case_analysis_witness :
    FactCheckService.verifyClaim (some "key") (.failure "boom") =
      ⟨false, some "Error", [], some "Failed to communicate with Fact Check API"⟩ ∧
    FactCheckService.verifyClaim (some "key")
        (.success (some [⟨[⟨"PolitiFact", "False"⟩]⟩])) =
      ⟨true, some "False", [⟨[⟨"PolitiFact", "False"⟩]⟩], none⟩ := by
  constructor
  · exact verifyClaim_total_case_analysis.2.2.1 "key" "boom" (by decide)
  · have h := verifyClaim_total_case_analysis.2.2.2.2 "key" ⟨[⟨"PolitiFact", "False"⟩]⟩ []
      (by decide)
    rw [h]
    rfl

/-! ### Claim C7 -/

/-- Claim C7 (code behaviour at the failing input): sentence splitting
with empty fragments discarded yields zero sentences on empty or
punctuation-only text, while the word list is the non-empty `[""]`
(respectively `["!!!"]`), so `words.length / sentences.length` divides
by zero — there is no treat-as-1 guard in the code. -/
theorem zero_sentences_failing_input :
    sentencesOf "" = [] ∧ wordsOf "" = [""] ∧
    sentencesOf "!!!" = [] ∧ wordsOf "!!!" = ["!!!"] ∧
    sentencesOf "Some words here." = ["Some words here"] := by
  refine ⟨by decide, by decide, by decide, by decide, by decide⟩

/-! ### Claim C8 -/

/-- Claim C8 (amended): the trust tier has no effect on the analysis —
`analyzeText` takes no source or tier input and the final confidence is
exactly the blend of the classifier confidence with the fact-check
result, with no further adjustment. -/
theorem confidence_ignores_trust_tier (text : String) (mlo : MlOutcome)
    (fco : FcOutcome) :
    (TextAnalyzer.analyzeText text mlo fco).confidence =
      calculateBlendedScore (mlConfidenceOf text mlo) (factCheckOf fco) :=
  rfl

/-- Claim C8 counterexample: at classifier confidence 1/2 with no
fact-check result, the code produces confidence 1/2, not the
`clamp01(1/2 + 0.05) = 11/20` the claimed Suspicious-tier nudge would
give: no ±0.05 adjustment exists in the code. -/
theorem trust_tier_nudge_counterexample :
    (TextAnalyzer.analyzeText "example claim" (.predicted (1/2)) .threw).confidence = 1/2 ∧
    blendWithTrust_spec (1/2) TrustTier.Suspicious = 11/20 ∧
    (TextAnalyzer.analyzeText "example claim" (.predicted (1/2)) .threw).confidence ≠
      blendWithTrust_spec (1/2) TrustTier.Suspicious := by
  have h1 : (TextAnalyzer.analyzeText "example claim" (.predicted (1/2)) .threw).confidence
      = 1/2 := rfl
  have h2 : blendWithTrust_spec (1/2) TrustTier.Suspicious = 11/20 := by
    norm_num [blendWithTrust_spec, trustTierNudge_spec, clamp01]
  refine ⟨h1, h2, ?_⟩
  rw [h1, h2]
  norm_num

/-! ### Claim C10 -/

/-- Claim C10: on a verified rating the modifier branches are tested in
the fixed order false/untrue, misleading/mixture, true/accurate — a
rating whose lowercase form contains "false" or "untrue" always gets
-0.4, whatever else it contains, and one matching misleading/mixture
but not false/untrue gets -0.2 even if it also contains "true". -/
theorem rating_modifier_priority_order (c : ℚ) (fc : FactCheckResult) (r : String)
    (hv : fc.isVerifiable = true) (hr : fc.rating = some r) :
    ((jsIncludes (jsToLower r) "false" = true ∨ jsIncludes (jsToLower r) "untrue" = true) →
      calculateBlendedScore c (some fc) = max 0 (min 1 (c + (-0.4)))) ∧
    (jsIncludes (jsToLower r) "false" = false → jsIncludes (jsToLower r) "untrue" = false →
      (jsIncludes (jsToLower r) "misleading" = true ∨ jsIncludes (jsToLower r) "mixture" = true) →
      calculateBlendedScore c (some fc) = max 0 (min 1 (c + (-0.2)))) := by
  constructor
  · intro hkey
    have hno : r ≠ "No results" := by
      rintro rfl
      rcases hkey with h | h <;> exact absurd h (by decide)
    have hun : r ≠ "Unrated" := by
      rintro rfl
      rcases hkey with h | h <;> exact absurd h (by decide)
    simp only [calculateBlendedScore, hr, hv]
    have hguard : (!(true : Bool) || some r == some "No results" ||
        some r == some "Unrated") = false := by
      simp [hno, hun]
    rw [if_neg (by rw [hguard]; exact Bool.false_ne_true)]
    have hcond : (optIncludes ((some r).map jsToLower) "false" ||
        optIncludes ((some r).map jsToLower) "untrue") = true := by
      show (jsIncludes (jsToLower r) "false" || jsIncludes (jsToLower r) "untrue") = true
      rcases hkey with h | h <;> simp [h]
    rw [if_pos hcond]
  · intro hf hu hkey
    have hno : r ≠ "No results" := by
      rintro rfl
      rcases hkey with h | h <;> exact absurd h (by decide)
    have hun : r ≠ "Unrated" := by
      rintro rfl
      rcases hkey with h | h <;> exact absurd h (by decide)
    simp only [calculateBlendedScore, hr, hv]
    have hguard : (!(true : Bool) || some r == some "No results" ||
        some r == some "Unrated") = false := by
      simp [hno, hun]
    rw [if_neg (by rw [hguard]; exact Bool.false_ne_true)]
    have hcond1 : (optIncludes ((some r).map jsToLower) "false" ||
        optIncludes ((some r).map jsToLower) "untrue") = false := by
      show (jsIncludes (jsToLower r) "false" || jsIncludes (jsToLower r) "untrue") = false
      simp [hf, hu]
    have hcond2 : (optIncludes ((some r).map jsToLower) "misleading" ||
        optIncludes ((some r).map jsToLower) "mixture") = true := by
      show (jsIncludes (jsToLower r) "misleading" || jsIncludes (jsToLower r) "mixture") = true
      rcases hkey with h | h <;> simp [h]
    rw [if_neg (by rw [hcond1]; exact Bool.false_ne_true), if_pos hcond2]

/-- Witness for C10: a rating containing all three keyword classes
still gets the -0.4 modifier. -/
theorem rating_modifier_priority_order_witness :
    calculateBlendedScore (1/2)
        (some ⟨true, some "False and misleading but true", [], none⟩) =
      max 0 (min 1 ((1/2 : ℚ) + (-0.4))) :=
  (rating_modifier_priority_order (1/2) ⟨true, some "False and misleading but true", [], none⟩
      "False and misleading but true" rfl rfl).1 (Or.inl (by decide))
